import Mathlib

/-!
Verification of the lottie-svg-toolbox viewer/converter core.

Shallow embedding of the TypeScript sources:
* `src/scripts/recent-files.ts`   — recent-file list persistence
* `src/utils/preferences.ts`      — typed preference store
* `LottieConverter` (session/viewport/export controller)
* `svg-utils` (`downloadRasterFromSVG`)

Modelling conventions:
* JS numbers are embedded as `ℚ` (exact arithmetic); `Math.round x` is
  `⌊x + 1/2⌋` (JS rounds half away towards +∞), `Math.min`/`Math.max` are
  `min`/`max`.
* A JS `undefined` numeric field is embedded as `0`: every read of such a
  field in the source guards it with a falsiness check (`x || d`, `!x`),
  and `0` and `undefined` are both falsy, so the embedding is
  observationally equivalent on all modelled paths.
* `a || b` on numbers is `jsOrQ a b` (take `b` when `a` is falsy, i.e. 0).
* DOM reads (container bounding box, root font size) are packaged in an
  `Env` value; storage reads are packaged as explicit read-outcome values
  (present / absent / throwing), so error paths are explicit.
* `JSON.parse` of an untrusted string is embedded as its outcome: an
  `Option` of the parsed value (`none` = the parse threw).
-/

/-- JS `a || b` for numbers: `b` when `a` is falsy (0), else `a`. -/
def jsOrQ (a b : ℚ) : ℚ := if a = 0 then b else a

/-- JS `a || b` where `a` is a nullable number (`null`/`undefined` = `none`,
`some 0` is also falsy). -/
def jsOrOptQ (a : Option ℚ) (b : ℚ) : ℚ :=
  match a with
  | none => b
  | some v => if v = 0 then b else v

/-- JS `Math.round`: round half towards +∞. -/
def jsRound (x : ℚ) : ℤ := ⌊x + 1/2⌋

/-- JS `String.prototype.toLowerCase`, character-wise. -/
def lowerStr (s : String) : String := ⟨s.data.map Char.toLower⟩

/-- JS `String.prototype.endsWith`. -/
def strEndsWith (s t : String) : Bool :=
  decide (t.data = s.data.drop (s.data.length - t.data.length))

/-- Drop the last `n` characters of a string (the effect of stripping a
matched extension). -/
def strDropRight (s : String) (n : ℕ) : String := ⟨s.data.take (s.data.length - n)⟩

/-! ## recent-files.ts -/

/-- `RecentItem` from `recent-files.ts`: name, byte size, last-opened
timestamp, optional inlined content. -/
structure RecentItem where
  name : String
  size : ℤ
  lastOpened : ℤ
  content : Option String
deriving Repr, DecidableEq

/-- `MAX_ITEMS` from `recent-files.ts`. -/
def MAX_ITEMS : ℕ := 20

/-- `MAX_INLINE_BYTES` from `recent-files.ts` (~300KB inline-content cap). -/
def MAX_INLINE_BYTES : ℕ := 300000

/-- Shape of `JSON.parse(localStorage.getItem(RECENT_KEY) || "[]")` as far as
`getRecentFiles` inspects it: an array of items, or any non-array value. -/
inductive RecentJson where
  | arr (items : List RecentItem)
  | nonArr
deriving Repr, DecidableEq

/-- Outcome of reading the recent-files key from storage:
the store threw, the key was absent, or a string was stored (carried as its
`JSON.parse` outcome, `none` when the parse throws). -/
inductive RecentRead where
  | unavailable
  | absent
  | value (parse : Option RecentJson)
deriving Repr, DecidableEq

/-- `getRecentFiles` from `recent-files.ts`: parse the stored string
(`"[]"` when absent), return the parsed array when it is an array,
`[]` otherwise; any throw (storage access or parse) yields `[]`. -/
def getRecentFiles (r : RecentRead) : List RecentItem :=
  match r with
  | .unavailable => []
  | .absent => []
  | .value none => []
  | .value (some (.arr items)) => items
  | .value (some .nonArr) => []

/-- `saveRecentFile` from `recent-files.ts`, as the list transformation it
stores: drop every entry with the same `(name, size)`, prepend the new entry
(content inlined only when its UTF-8 byte size is within the cap), keep the
first `MAX_ITEMS`. -/
def saveRecentFile (items : List RecentItem) (name : String) (size : ℤ)
    (now : ℤ) (content : Option String) : List RecentItem :=
  let inlineContent : Option String :=
    match content with
    | some c => if c.utf8ByteSize ≤ MAX_INLINE_BYTES then some c else none
    | none => none
  let withoutDupes := items.filter (fun it => ¬(it.name = name ∧ it.size = size))
  (⟨name, size, now, inlineContent⟩ :: withoutDupes).take MAX_ITEMS

/-- `touchRecent` from `recent-files.ts`, as the list transformation it
stores: update `lastOpened` of every `(name, size)` match in place. -/
def touchRecent (items : List RecentItem) (name : String) (size : ℤ)
    (now : ℤ) : List RecentItem :=
  items.map (fun it =>
    if it.name = name ∧ it.size = size then { it with lastOpened := now } else it)

/-- The `(name, size)` deduplication key of a recent entry. -/
def recentKey (it : RecentItem) : String × ℤ := (it.name, it.size)

/-! ## preferences.ts -/

/-- The preference keys of `PreferenceKeys` in `preferences.ts`. -/
inductive PrefKey where
  | bg
  | bgCustomColor
  | exportFormat
  | aggressiveOptimization
  | loop
  | ignoreOpacity
  | showFrame
  | recentFiles
  | cardCollapsed
deriving Repr, DecidableEq

/-- A preference value: the store holds strings; typed reads produce a
boolean or a string depending on the key's declared default type. -/
inductive PrefValue where
  | b (v : Bool)
  | s (v : String)
deriving Repr, DecidableEq

/-- `DEFAULT_PREFERENCES` from `preferences.ts`. -/
def DEFAULT_PREFERENCES : PrefKey → PrefValue
  | .bg => .s "white"
  | .bgCustomColor => .s "#ffffff"
  | .exportFormat => .s "svg"
  | .aggressiveOptimization => .b false
  | .loop => .b true
  | .ignoreOpacity => .b false
  | .showFrame => .b false
  | .recentFiles => .s "[]"
  | .cardCollapsed => .b false

/-- `typeof DEFAULT_PREFERENCES[key] === "boolean"`. -/
def prefIsBool (k : PrefKey) : Bool :=
  match DEFAULT_PREFERENCES k with
  | .b _ => true
  | .s _ => false

/-- Outcome of `localStorage.getItem(PREFIX + key)`: the store threw, the key
was absent (`null`), or a string was stored. -/
inductive StoredRead where
  | unavailable
  | absent
  | value (s : String)
deriving Repr, DecidableEq

/-- `getPreference` from `preferences.ts`: absent keys and storage throws
fall back to `defaultValue ?? DEFAULT_PREFERENCES[key]`; a stored string is
decoded as `stored === "true"` when the key's declared default is boolean,
and returned verbatim otherwise. -/
def getPreference (key : PrefKey) (stored : StoredRead)
    (defaultValue : Option PrefValue) : PrefValue :=
  match stored with
  | .unavailable => defaultValue.getD (DEFAULT_PREFERENCES key)
  | .absent => defaultValue.getD (DEFAULT_PREFERENCES key)
  | .value s =>
      if prefIsBool key then .b (s = "true") else .s s

/-! ## Raster export scale table (`downloadCurrentFrame`) -/

/-- `scaleSteps` from `LottieConverter.downloadCurrentFrame`. -/
def scaleSteps : List ℚ := [1/4, 1/2, 1, 2, 4, 8]

/-- The raster scale selection of `LottieConverter.downloadCurrentFrame`:
`scaleIdx` is the parsed slider value (`none` = missing slider / `NaN`,
which falls back to 2), index 0 is rewritten to 2 (the 1× slot), then the
index is clamped to the table bounds. -/
def rasterExportScale (sliderValue : Option ℤ) : ℚ :=
  let scaleIdx : ℤ := sliderValue.getD 2
  let scaleIdx : ℤ := if scaleIdx = 0 then 2 else scaleIdx
  scaleSteps.getD (max 0 (min ((scaleSteps.length : ℤ) - 1) scaleIdx)).toNat 0

/-! ## LottieConverter state -/

/-- Zoom mode of the viewport (`state.zoomMode`). -/
inductive ZoomMode where
  | fit
  | fixed
deriving Repr, DecidableEq

/-- The fields this core reads from the raw animation data, plus the frame
count the external playback engine reports for it (`instance.totalFrames`).
`fr`/`w`/`h` are `Number(data?.fr)` etc., with `0` standing for an
absent/non-numeric field (both are falsy at every use site). -/
structure LottieData where
  fr : ℚ
  w : ℚ
  h : ℚ
  engineTotalFrames : ℤ
deriving Repr, DecidableEq

/-- A live playback-engine instance as far as the converter reads it. -/
structure AnimInstance where
  totalFrames : ℤ
deriving Repr, DecidableEq

/-- `LottieConverterState` plus the class-level tracking fields of
`LottieConverter` (`currentFileName`, `currentFileSize`,
`hasInteractedSinceLoad`, pan offsets). Optional string/number fields that
the source reads only through falsiness guards are embedded per the header
conventions. -/
structure ConverterState where
  animationInstance : Option AnimInstance
  animationData : Option LottieData
  totalFrames : ℤ
  currentFrame : ℤ
  originalFilename : Option String
  originalFileExt : Option String
  fileSizeBytes : Option ℤ
  width : ℚ
  height : ℚ
  fps : ℚ
  isPlaying : Bool
  isLooping : Bool
  zoomMode : ZoomMode
  zoomPercent : ℤ
  ignoreOpacity : Bool
  currentFileName : Option String
  currentFileSize : Option ℤ
  hasInteractedSinceLoad : Bool
  panOffsetX : ℚ
  panOffsetY : ℚ
deriving Repr, DecidableEq

/-- The initial field values of `LottieConverter` (`state` initializer and
class-field initializers). -/
def initState : ConverterState where
  animationInstance := none
  animationData := none
  totalFrames := 0
  currentFrame := 0
  originalFilename := none
  originalFileExt := none
  fileSizeBytes := none
  width := 0
  height := 0
  fps := 0
  isPlaying := false
  isLooping := true
  zoomMode := .fit
  zoomPercent := 100
  ignoreOpacity := false
  currentFileName := none
  currentFileSize := none
  hasInteractedSinceLoad := false
  panOffsetX := 0
  panOffsetY := 0

/-- DOM environment the viewport math reads: the preview container's
bounding box and the root font size (`getRemInPixels`). -/
structure Env where
  rectW : ℚ
  rectH : ℚ
  rem : ℚ
deriving Repr, DecidableEq

/-- Fixed inset padding reserved around the fitted asset. -/
structure FitPad where
  left : ℚ
  right : ℚ
  top : ℚ
  bottom : ℚ
deriving Repr, DecidableEq

/-- `getFitPaddingPx`: 20rem left/right, 0 top, 5rem bottom. -/
def getFitPaddingPx (rem : ℚ) : FitPad :=
  { left := 20 * rem, right := 20 * rem, top := 0, bottom := 5 * rem }

/-- Horizontal centering shift `(pad.left - pad.right) / 2`. -/
def xShift (rem : ℚ) : ℚ :=
  ((getFitPaddingPx rem).left - (getFitPaddingPx rem).right) / 2

/-- Vertical centering shift `(pad.top - pad.bottom) / 2`. -/
def yShift (rem : ℚ) : ℚ :=
  ((getFitPaddingPx rem).top - (getFitPaddingPx rem).bottom) / 2

/-- `computeFitScale`: `min(availW/width, availH/height)` over the padded
container box, `none` when dimensions or container box are missing (falsy). -/
def computeFitScale (st : ConverterState) (env : Env) : Option ℚ :=
  if st.width = 0 ∨ st.height = 0 then none
  else if env.rectW = 0 ∨ env.rectH = 0 then none
  else
    let pad := getFitPaddingPx env.rem
    let availW := max 1 (env.rectW - (pad.left + pad.right))
    let availH := max 1 (env.rectH - (pad.top + pad.bottom))
    some (min (availW / st.width) (availH / st.height))

/-- `getCurrentScale`: in fixed mode `clamp((zoomPercent || 100)/100, 0.02, 32)`,
in fit mode `computeFitScale() || 1`. -/
def getCurrentScale (st : ConverterState) (env : Env) : ℚ :=
  if st.zoomMode = .fixed then
    let p : ℚ := jsOrQ (st.zoomPercent : ℚ) 100
    max (2/100) (min 32 (p / 100))
  else
    jsOrOptQ (computeFitScale st env) 1

/-- `computeFitPercent`: the fit scale clamped to `[0.02, 32]`, times 100;
`none` when dimensions or container box are missing. -/
def computeFitPercent (st : ConverterState) (env : Env) : Option ℚ :=
  if st.width = 0 ∨ st.height = 0 then none
  else if env.rectW = 0 ∨ env.rectH = 0 then none
  else
    let pad := getFitPaddingPx env.rem
    let availW := max 1 (env.rectW - (pad.left + pad.right))
    let availH := max 1 (env.rectH - (pad.top + pad.bottom))
    let scale := min (availW / st.width) (availH / st.height)
    some (max (2/100) (min 32 scale) * 100)

/-! ## Load operations -/

/-- `loadLottieAnimation` (including its synchronous-by-model `DOMLoaded`
completion): tear down any prior engine instance, hand `animationData` to
the engine, then on the engine's ready notification reset pan, derive
`totalFrames = instance.totalFrames - 1`, pull `fr`/`w`/`h` from the raw
data with falsy fallback to the prior values, reset the frame to 0, and
reset the playing flag. A missing container or missing data is a no-op. -/
def loadLottieAnimation (st : ConverterState) : ConverterState :=
  match st.animationData with
  | none => st
  | some data =>
      let inst : AnimInstance := { totalFrames := data.engineTotalFrames }
      { st with
          animationInstance := some inst
          panOffsetX := 0
          panOffsetY := 0
          totalFrames := inst.totalFrames - 1
          fps := jsOrQ data.fr st.fps
          width := jsOrQ data.w st.width
          height := jsOrQ data.h st.height
          currentFrame := 0
          isPlaying := false }

/-- A static SVG document as far as `loadStaticSVG` reads it: `viewBox`
base values (0 when the attribute is absent — the DOM's `baseVal` default)
and the numeric portion of the `width`/`height` attributes (`none` when the
attribute is absent or empty, i.e. falsy as a string; the `toPx` parse of a
present attribute yields 0 when no digits remain). -/
structure SvgDoc where
  viewBoxW : ℚ
  viewBoxH : ℚ
  widthAttr : Option ℚ
  heightAttr : Option ℚ
deriving Repr, DecidableEq

/-- `loadStaticSVG`: destroy any engine instance, insert the SVG markup,
derive dimensions from the `viewBox` falling back to the `width`/`height`
attributes, keep the prior dimensions when both sources are falsy, zero the
frame fields, clear the frame rate, and reset the playing flag. -/
def loadStaticSVG (st : ConverterState) (doc : SvgDoc) : ConverterState :=
  let width := doc.viewBoxW
  let height := doc.viewBoxH
  let widthHeight : ℚ × ℚ :=
    if (width = 0 ∨ height = 0) ∧ doc.widthAttr.isSome ∧ doc.heightAttr.isSome then
      (doc.widthAttr.getD 0, doc.heightAttr.getD 0)
    else (width, height)
  { st with
      animationInstance := none
      width := jsOrQ widthHeight.1 st.width
      height := jsOrQ widthHeight.2 st.height
      totalFrames := 0
      currentFrame := 0
      fps := 0
      isPlaying := false }

/-- The two readings `handleFile` takes of a dropped file's text: its
`JSON.parse` outcome (for the `.json` branch; `none` = the parse threw) and
its interpretation as an SVG document (for the `.svg` branch). -/
structure FileContent where
  jsonParse : Option LottieData
  svgDoc : SvgDoc
deriving Repr, DecidableEq

/-- Strip a trailing `.json` (when `isJson`) or `.svg` extension,
case-insensitively — the `replace(/\.json$/i, "")` / `replace(/\.svg$/i, "")`
of `handleFile`. -/
def stripExt (name : String) (isJson : Bool) : String :=
  if isJson then strDropRight name 5 else strDropRight name 4

/-- `handleFile`: reject filenames ending in neither `.json` nor `.svg`
(alert, no state change); otherwise record the display name, extension,
byte size and current-file tracking fields, then for `.json` parse the text
and on success store the data and run `loadLottieAnimation` (a parse throw
alerts and leaves the rest untouched), and for `.svg` run `loadStaticSVG`. -/
def handleFile (st : ConverterState) (fileName : String) (fileSize : ℤ)
    (content : FileContent) : ConverterState :=
  let lower := lowerStr fileName
  let isJson := strEndsWith lower ".json"
  let isSvg := strEndsWith lower ".svg"
  if ¬isJson ∧ ¬isSvg then st
  else
    let st := { st with
        originalFilename := some (stripExt fileName isJson)
        originalFileExt := some (if isJson then ".json" else ".svg")
        fileSizeBytes := some fileSize
        currentFileName := some fileName
        currentFileSize := some fileSize }
    if isJson then
      match content.jsonParse with
      | some data => loadLottieAnimation { st with animationData := some data }
      | none => st
    else
      loadStaticSVG st content.svgDoc

/-- Strip a trailing `.json` or `.svg` extension, case-insensitively — the
`replace(/\.(json|svg)$/i, "")` of `loadFromJSONString`/`loadFromSVGString`. -/
def stripJsonSvgExt (name : String) : String :=
  if strEndsWith (lowerStr name) ".json" then strDropRight name 5
  else if strEndsWith (lowerStr name) ".svg" then strDropRight name 4
  else name

/-- `loadFromJSONString` (the Recent Files reopen path): inside its
`try`, the display name and extension are assigned first, then the JSON is
parsed — so a parse throw (`none`) alerts having already overwritten those
two fields; on success the size and current-file tracking fields are set
and `loadLottieAnimation` runs. -/
def loadFromJSONString (st : ConverterState) (filename : String) (size : ℤ)
    (jsonParse : Option LottieData) : ConverterState :=
  let st := { st with
      originalFilename := some (stripJsonSvgExt filename)
      originalFileExt := some (if strEndsWith (lowerStr filename) ".svg" then ".svg" else ".json") }
  match jsonParse with
  | none => st
  | some data =>
      loadLottieAnimation
        { st with
            animationData := some data
            fileSizeBytes := some size
            currentFileName := some filename
            currentFileSize := some size }

/-- `loadFromSVGString` (the Recent Files reopen path for SVGs). -/
def loadFromSVGString (st : ConverterState) (filename : String) (size : ℤ)
    (doc : SvgDoc) : ConverterState :=
  let st := { st with
      originalFilename := some (stripJsonSvgExt filename)
      originalFileExt := some ".svg"
      fileSizeBytes := some size
      currentFileName := some filename
      currentFileSize := some size }
  loadStaticSVG st doc

/-! ## Playback -/

/-- `setFrame`: a no-op without an engine instance; otherwise clamp the
requested frame to `[0, state.totalFrames]`, render it, and re-apply the
viewport transform. -/
def setFrame (st : ConverterState) (frame : ℤ) : ConverterState :=
  match st.animationInstance with
  | none => st
  | some _ =>
      let clampedFrame := max 0 (min frame st.totalFrames)
      { st with currentFrame := clampedFrame }

/-- `touchRecentIfNeeded`, as its effect on converter state: at most once
per load session, and only when a display name and byte size are known,
touch the recent entry (a storage effect) and set the interaction flag. -/
def touchRecentIfNeeded (st : ConverterState) : ConverterState :=
  if st.hasInteractedSinceLoad then st
  else
    match st.originalFilename, st.fileSizeBytes with
    | some _, some _ => { st with hasInteractedSinceLoad := true }
    | _, _ => st

/-- `play`: a no-op without an engine instance; otherwise rewind to frame 0
when not looping and already at the last frame, then start playback and
touch the recent entry. -/
def play (st : ConverterState) : ConverterState :=
  match st.animationInstance with
  | none => st
  | some _ =>
      let st :=
        if ¬st.isLooping ∧ st.totalFrames ≤ st.currentFrame then
          { st with currentFrame := 0 }
        else st
      touchRecentIfNeeded { st with isPlaying := true }

/-- `pause`: a no-op without an engine instance; otherwise stop playback. -/
def pause (st : ConverterState) : ConverterState :=
  match st.animationInstance with
  | none => st
  | some _ => { st with isPlaying := false }

/-! ## Export pipeline -/

/-- The live render surface's root SVG element as far as
`buildExportableSVGString` reads the clone: its `viewBox` base values and
its current `width`/`height` attributes (always overwritten when the state
dimensions are known). -/
structure LiveSvg where
  viewBoxW : ℚ
  viewBoxH : ℚ
  widthAttr : Option ℤ
  heightAttr : Option ℤ
deriving Repr, DecidableEq

/-- The dimensional content of the cleaned export document. -/
structure ExportDoc where
  widthAttr : Option ℤ
  heightAttr : Option ℤ
  viewBox : Option (ℚ × ℚ)
  preserveAspectRatio : String
  overlayRemoved : Bool
  opacityStyleRemoved : Bool
  previewStyleCleared : Bool
deriving Repr, DecidableEq

/-- `buildExportableSVGString`: clone the live SVG, remove the frame-outline
overlay and the ignore-opacity style, clear the preview positioning style,
and — when the intrinsic dimensions (state dimensions, falling back to the
clone's `viewBox`) are nonzero — force rounded `width`/`height` attributes
and a `0 0 w h` viewBox; always set `preserveAspectRatio="xMidYMid meet"`. -/
def buildExportableSVGString (st : ConverterState) (live : LiveSvg) : ExportDoc :=
  let width := jsOrQ st.width (jsOrQ live.viewBoxW 0)
  let height := jsOrQ st.height (jsOrQ live.viewBoxH 0)
  let dims : Option ℤ × Option ℤ × Option (ℚ × ℚ) :=
    if width ≠ 0 ∧ height ≠ 0 then
      (some (jsRound width), some (jsRound height), some (width, height))
    else
      (live.widthAttr, live.heightAttr, some (live.viewBoxW, live.viewBoxH))
  { widthAttr := dims.1
    heightAttr := dims.2.1
    viewBox := dims.2.2
    preserveAspectRatio := "xMidYMid meet"
    overlayRemoved := true
    opacityStyleRemoved := true
    previewStyleCleared := true }

/-- The pixel dimensions `downloadRasterFromSVG` gives its canvas:
`max(1, round(max(1, naturalSize) * scale))` per axis (`scale` is always a
finite number in this embedding, so the `Number.isFinite` fallback never
fires). -/
def downloadRasterDims (naturalWidth naturalHeight scale : ℚ) : ℤ × ℤ :=
  let baseWidth := max 1 naturalWidth
  let baseHeight := max 1 naturalHeight
  (max 1 (jsRound (baseWidth * scale)), max 1 (jsRound (baseHeight * scale)))

/-- The raster export's pixel dimensions end to end: the cleaned export
document is decoded as an image whose natural size is its `width`/`height`
attributes, then rasterized by `downloadRasterFromSVG` at `scale`. -/
def exportRasterDims (st : ConverterState) (live : LiveSvg) (scale : ℚ) : ℤ × ℤ :=
  let doc := buildExportableSVGString st live
  downloadRasterDims ((doc.widthAttr.getD 0 : ℤ) : ℚ) ((doc.heightAttr.getD 0 : ℤ) : ℚ) scale

/-! ## Zoom gestures and controls -/

/-- The wheel handler of `setupWheelZoom`, as a state transformation
(`hasSvg` is the `querySelector("svg")` guard; targets over the zoom UI do
not reach this logic). From the current effective percentage it derives a
multiplicative step of 1.1 per notch (`steps = clamp(round(deltaY/100), -4, 4)`,
a zero-step delta still zooming one notch by sign), clamps the rounded
target percentage to `[2, 3200]`, switches to fixed mode at that
percentage, and rescales the pan offset about the screen center:
`newPan = (oldPan + shift) * newScale/oldScale - shift` (with a falsy-guard
`oldScale || 1`). -/
def wheelZoom (st : ConverterState) (env : Env) (hasSvg : Bool) (deltaY : ℚ) :
    ConverterState :=
  if ¬hasSvg then st
  else
    let oldScale := getCurrentScale st env
    let basePercent : ℤ :=
      if st.zoomMode = .fit then jsRound (jsOrOptQ (computeFitPercent st env) 100)
      else
        if st.zoomPercent = 0 then 100 else st.zoomPercent
    let zoomFactorPerStep : ℚ := 11/10
    let steps : ℤ := max (-4) (min 4 (jsRound (deltaY / 100)))
    let factor : ℚ :=
      if steps = 0 then (if deltaY < 0 then 1 / zoomFactorPerStep else zoomFactorPerStep)
      else zoomFactorPerStep ^ steps
    let newPercentRaw : ℚ := (basePercent : ℚ) * (1 / factor)
    let newPercent : ℤ := max 2 (min 3200 (jsRound newPercentRaw))
    let st' := { st with zoomMode := ZoomMode.fixed, zoomPercent := newPercent }
    let newScale := getCurrentScale st' env
    let ratio := newScale / (jsOrQ oldScale 1)
    let oldPxFromCenterX := st.panOffsetX + xShift env.rem
    let oldPxFromCenterY := st.panOffsetY + yShift env.rem
    { st' with
        panOffsetX := ratio * oldPxFromCenterX - xShift env.rem
        panOffsetY := ratio * oldPxFromCenterY - yShift env.rem }

/-- A value delivered by the zoom select (`starwind-select:change`):
the two relative presets, fit, a numeric percentage option (`parseInt`
succeeded), or a non-numeric string (`parseInt` gave `NaN`). -/
inductive SelectValue where
  | zoomIn
  | zoomOut
  | fit
  | numeric (n : ℤ)
  | nonNumeric
deriving Repr, DecidableEq

/-- `setPercent` from `setupZoomControls`: switch to fixed mode at the given
percentage (stored as-is). -/
def setPercent (st : ConverterState) (percent : ℤ) : ConverterState :=
  { st with zoomMode := ZoomMode.fixed, zoomPercent := percent }

/-- `setModeFit` from `setupZoomControls`: switch to fit mode and reset the
pan offset. -/
def setModeFit (st : ConverterState) : ConverterState :=
  { st with zoomMode := ZoomMode.fit, panOffsetX := 0, panOffsetY := 0 }

/-- `handleSelectChange` from `setupZoomControls`: compute the current
effective percentage, then step to the next preset (`zoom-in`/`zoom-out`),
switch to fit, or jump to the selected numeric percentage. -/
def handleSelectChange (st : ConverterState) (env : Env) (value : SelectValue) :
    ConverterState :=
  let currentPercent : ℤ :=
    if st.zoomMode = .fixed then (if st.zoomPercent = 0 then 100 else st.zoomPercent)
    else jsRound (jsOrOptQ (computeFitPercent st env) 100)
  match value with
  | .zoomIn =>
      let nextIn : ℤ :=
        if 200 ≤ currentPercent then 400
        else if 100 ≤ currentPercent then 200
        else if 50 ≤ currentPercent then 100
        else 50
      setPercent st nextIn
  | .zoomOut =>
      let nextOut : ℤ :=
        if currentPercent ≤ 50 then 25
        else if currentPercent ≤ 100 then 50
        else if currentPercent ≤ 200 then 100
        else 200
      setPercent st nextOut
  | .fit => setModeFit st
  | .numeric n => setPercent st n
  | .nonNumeric => st

/-! ## Sample inputs for concrete evaluations -/

/-- A concrete DOM environment: a 1000×800 preview box, 16px root font. -/
def sampleEnv : Env := { rectW := 1000, rectH := 800, rem := 16 }

/-- A loaded 100-frame 800×600 24fps animation session state. -/
def sampleLoadedState : ConverterState :=
  { initState with
      animationInstance := some { totalFrames := 100 }
      animationData := some { fr := 24, w := 800, h := 600, engineTotalFrames := 100 }
      totalFrames := 99
      originalFilename := some "old"
      originalFileExt := some ".json"
      fileSizeBytes := some 1000
      width := 800
      height := 600
      fps := 24
      currentFileName := some "old.json"
      currentFileSize := some 1000 }

/-- Two recent entries with distinct `(name, size)` keys. -/
def sampleRecentA : RecentItem := { name := "a.json", size := 1, lastOpened := 10, content := none }

/-- Second sample recent entry. -/
def sampleRecentB : RecentItem := { name := "b.json", size := 2, lastOpened := 10, content := none }

/-! ## Theorems -/

/-- C10: reading the recent-files list is total and never throws — for every
stored-read outcome (valid array, valid non-array JSON, malformed JSON, or
an inaccessible store) `getRecentFiles` returns a list, and it returns the
empty list in every outcome other than a successfully parsed array, whose
items it returns verbatim. -/
theorem getRecentFiles_total_empty_on_error (r : RecentRead) :
    getRecentFiles r = [] ∨
      ∃ items, r = RecentRead.value (some (RecentJson.arr items)) ∧
        getRecentFiles r = items := by
  rcases r with _ | _ | p
  · exact Or.inl rfl
  · exact Or.inl rfl
  · rcases p with _ | j
    · exact Or.inl rfl
    · rcases j with items | _
      · exact Or.inr ⟨items, rfl, rfl⟩
      · exact Or.inl rfl

/-- C9 counterexample: the boolean preference `loop` has declared default
`true`, but reading it when the store holds the malformed encoding
`"garbage"` returns `false` — a malformed stored value does NOT fall back
to the key's typed default. -/
theorem getPreference_malformed_loop_not_default :
    getPreference PrefKey.loop (StoredRead.value "garbage") none = PrefValue.b false ∧
      DEFAULT_PREFERENCES PrefKey.loop = PrefValue.b true := by
  constructor <;> rfl

/-- C9 (amended): for *every* preference key, an absent key or a throwing
store falls back to `defaultValue ?? DEFAULT_PREFERENCES[key]`; but a
stored value is never validated — a boolean-typed key decodes any stored
string other than the literal `"true"` (malformed encodings included) to
`false`, and a string-typed key returns the stored string verbatim,
regardless of the key's declared default. -/
theorem getPreference_default_on_absence (key : PrefKey) (dv : Option PrefValue)
    (s : String) :
    getPreference key StoredRead.absent dv = dv.getD (DEFAULT_PREFERENCES key) ∧
      getPreference key StoredRead.unavailable dv = dv.getD (DEFAULT_PREFERENCES key) ∧
      (prefIsBool key = true → s ≠ "true" →
        getPreference key (StoredRead.value s) dv = PrefValue.b false) ∧
      (prefIsBool key = false →
        getPreference key (StoredRead.value s) dv = PrefValue.s s) := by
  refine ⟨rfl, rfl, ?_, ?_⟩
  · intro hb hs
    simp [getPreference, hb, hs]
  · intro hb
    simp [getPreference, hb]

/-- C9 witness: instantiations of `getPreference_default_on_absence` at the
boolean-typed `loop` key (absent read, and stored value `"1"`) and at the
string-typed `bg` key (throwing read with an explicit default argument, and
stored value `"purple"`). -/
theorem getPreference_default_on_absence_witness :
    getPreference PrefKey.loop StoredRead.absent none =
        (none : Option PrefValue).getD (DEFAULT_PREFERENCES PrefKey.loop) ∧
      getPreference PrefKey.bg StoredRead.unavailable (some (PrefValue.s "gray")) =
        (some (PrefValue.s "gray")).getD (DEFAULT_PREFERENCES PrefKey.bg) ∧
      getPreference PrefKey.loop (StoredRead.value "1") none = PrefValue.b false ∧
      getPreference PrefKey.bg (StoredRead.value "purple") none = PrefValue.s "purple" := by
  have T1 := getPreference_default_on_absence PrefKey.loop none "1"
  have T2 := getPreference_default_on_absence PrefKey.bg (some (PrefValue.s "gray")) "purple"
  exact ⟨T1.1, T2.2.1, T1.2.2.1 rfl (by decide), T2.2.2.2 rfl⟩

/-- C8: for every slider index, the raster export scale is the entry of the
fixed step table `{0.25, 0.5, 1, 2, 4, 8}` at the index clamped to the
table bounds, except that index 0 yields 1× (not 0.25×); a missing or
non-numeric slider value also yields 1×; the result is always a table
entry. -/
theorem rasterExportScale_table (sliderValue : Option ℤ) :
    rasterExportScale sliderValue =
      (match sliderValue with
        | none => 1
        | some idx =>
            if idx = 0 then 1
            else scaleSteps.getD (max 0 (min 5 idx)).toNat 0) ∧
      rasterExportScale sliderValue ∈ scaleSteps := by
  have htable : ∀ idx : ℤ, scaleSteps.getD (max 0 (min 5 idx)).toNat 0 ∈ scaleSteps := by
    intro idx
    have h5 : (max 0 (min 5 idx)).toNat ≤ 5 := by omega
    interval_cases h : (max 0 (min 5 idx)).toNat <;> simp [scaleSteps]
  rcases sliderValue with _ | idx
  · exact ⟨rfl, by norm_num [rasterExportScale, scaleSteps]⟩
  · constructor
    · by_cases h0 : idx = 0
      · subst h0; rfl
      · simp only [rasterExportScale, Option.getD, h0, if_neg]
        norm_num [scaleSteps]
    · by_cases h0 : idx = 0
      · subst h0; norm_num [rasterExportScale, scaleSteps]
      · have : rasterExportScale (some idx) =
            scaleSteps.getD (max 0 (min 5 idx)).toNat 0 := by
          simp only [rasterExportScale, Option.getD, h0, if_neg]
          norm_num [scaleSteps]
        rw [this]; exact htable idx

/-- C4 counterexample: touching an existing entry does NOT move it to the
front — `touchRecent` on `[A, B]` for `B`'s key updates `B`'s timestamp in
place, leaving `A` at the front. -/
theorem touchRecent_does_not_move_to_front :
    touchRecent [sampleRecentA, sampleRecentB] "b.json" 2 99 =
        [sampleRecentA, { sampleRecentB with lastOpened := 99 }] ∧
      (touchRecent [sampleRecentA, sampleRecentB] "b.json" 2 99).head? =
        some sampleRecentA ∧
      recentKey sampleRecentA ≠ ("b.json", 2) := by
  refine ⟨?_, ?_, by decide⟩ <;> rfl

/-- C4 (amended): the recent-files list never exceeds `MAX_ITEMS` and
saving never introduces two entries with the same `(name, size)` key;
reopening (`saveRecentFile`) collapses any existing entry with that key and
places the single entry, carrying the new timestamp, at the front; touching
(`touchRecent`) updates the timestamp of the matching entry *in place* —
it preserves the key sequence (hence order, length and key-uniqueness)
rather than moving the entry to the front. -/
theorem recent_list_invariants (items : List RecentItem) (name : String)
    (size now : ℤ) (content : Option String)
    (hnd : (items.map recentKey).Nodup) :
    (saveRecentFile items name size now content).length ≤ MAX_ITEMS ∧
      ((saveRecentFile items name size now content).map recentKey).Nodup ∧
      (∃ c, (saveRecentFile items name size now content).head? =
          some { name := name, size := size, lastOpened := now, content := c }) ∧
      (touchRecent items name size now).map recentKey = items.map recentKey ∧
      (touchRecent items name size now).length = items.length ∧
      ((touchRecent items name size now).map recentKey).Nodup ∧
      ∀ it ∈ touchRecent items name size now,
        recentKey it = (name, size) → it.lastOpened = now := by
  obtain ⟨ic, hsave⟩ : ∃ ic, saveRecentFile items name size now content =
      (⟨name, size, now, ic⟩ ::
        items.filter (fun it => ¬(it.name = name ∧ it.size = size))).take MAX_ITEMS :=
    ⟨_, rfl⟩
  have htouch : (touchRecent items name size now).map recentKey = items.map recentKey := by
    simp only [touchRecent, List.map_map]
    apply List.map_congr_left
    intro it _
    by_cases h : it.name = name ∧ it.size = size <;> simp [recentKey, h]
  refine ⟨?_, ?_, ?_, htouch, ?_, ?_, ?_⟩
  · rw [hsave]; exact List.length_take_le _ _
  · rw [hsave]
    have hsub := List.take_sublist MAX_ITEMS
      (⟨name, size, now, ic⟩ ::
        items.filter (fun it => ¬(it.name = name ∧ it.size = size)) : List RecentItem)
    refine List.Nodup.sublist (hsub.map recentKey) ?_
    rw [List.map_cons, List.nodup_cons]
    constructor
    · intro hmem
      rw [List.mem_map] at hmem
      obtain ⟨x, hx, hkey⟩ := hmem
      rw [List.mem_filter] at hx
      have hne : ¬x.name = name ∨ ¬x.size = size := by simpa using hx.2
      rcases hne with hne | hne
      · exact hne (congrArg Prod.fst hkey)
      · exact hne (congrArg Prod.snd hkey)
    · exact List.Nodup.sublist ((List.filter_sublist items).map recentKey) hnd
  · refine ⟨ic, ?_⟩
    rw [hsave]
    rw [show MAX_ITEMS = 19 + 1 from rfl, List.take_succ_cons, List.head?_cons]
  · simp only [touchRecent, List.length_map]
  · rw [htouch]; exact hnd
  · intro it hit hkey
    simp only [touchRecent, List.mem_map] at hit
    obtain ⟨a, _, ha⟩ := hit
    by_cases h : a.name = name ∧ a.size = size
    · rw [if_pos h] at ha
      rw [← ha]
    · rw [if_neg h] at ha
      subst ha
      exact absurd ⟨congrArg Prod.fst hkey, congrArg Prod.snd hkey⟩ h

/-- C4 witness: instantiation of `recent_list_invariants` on a singleton
list and a fresh `(name, size)` key. -/
theorem recent_list_invariants_witness :
    (saveRecentFile [sampleRecentA] "b.json" 2 99 none).length ≤ MAX_ITEMS ∧
      ((saveRecentFile [sampleRecentA] "b.json" 2 99 none).map recentKey).Nodup ∧
      (∃ c, (saveRecentFile [sampleRecentA] "b.json" 2 99 none).head? =
          some { name := "b.json", size := 2, lastOpened := 99, content := c }) ∧
      (touchRecent [sampleRecentA] "b.json" 2 99).map recentKey =
        [sampleRecentA].map recentKey ∧
      (touchRecent [sampleRecentA] "b.json" 2 99).length = [sampleRecentA].length ∧
      ((touchRecent [sampleRecentA] "b.json" 2 99).map recentKey).Nodup ∧
      ∀ it ∈ touchRecent [sampleRecentA] "b.json" 2 99,
        recentKey it = ("b.json", 2) → it.lastOpened = 99 :=
  recent_list_invariants [sampleRecentA] "b.json" 2 99 none (by decide)

/-- C3: for every animated session (an engine instance is attached and
`state.totalFrames` is the engine frame count minus one) and every integer
`n` — negative or past the last frame included — `setFrame n` stores `n`
clamped into `[0, frameCount - 1]`; and both after load completion and
after every `setFrame` the invariant `0 ≤ currentFrame ≤ frameCount - 1`
holds. -/
theorem setFrame_clamps_and_frame_invariant (st : ConverterState)
    (data : LottieData) (inst : AnimInstance) (n fc : ℤ) (hfc : 1 ≤ fc) :
    (data.engineTotalFrames = fc →
      (loadLottieAnimation { st with animationData := some data }).currentFrame = 0 ∧
      (loadLottieAnimation { st with animationData := some data }).totalFrames = fc - 1 ∧
      0 ≤ (loadLottieAnimation { st with animationData := some data }).currentFrame ∧
      (loadLottieAnimation { st with animationData := some data }).currentFrame ≤ fc - 1) ∧
    (st.animationInstance = some inst → st.totalFrames = fc - 1 →
      (setFrame st n).currentFrame = max 0 (min n (fc - 1)) ∧
      0 ≤ (setFrame st n).currentFrame ∧
      (setFrame st n).currentFrame ≤ fc - 1) := by
  constructor
  · intro hdata
    have hcur : (loadLottieAnimation { st with animationData := some data }).currentFrame = 0 :=
      rfl
    refine ⟨hcur, ?_, ?_, ?_⟩
    · simp [loadLottieAnimation, hdata]
    · rw [hcur]
    · rw [hcur]; omega
  · intro hinst htf
    have h1 : (setFrame st n).currentFrame = max 0 (min n st.totalFrames) := by
      simp only [setFrame, hinst]
    rw [h1, htf]
    omega

/-- C3 witness: instantiation of `setFrame_clamps_and_frame_invariant` on
the loaded 100-frame sample session with the out-of-range request `-5`. -/
theorem setFrame_clamps_and_frame_invariant_witness :
    (setFrame sampleLoadedState (-5)).currentFrame = max 0 (min (-5) (100 - 1)) ∧
      0 ≤ (setFrame sampleLoadedState (-5)).currentFrame ∧
      (setFrame sampleLoadedState (-5)).currentFrame ≤ 100 - 1 :=
  (setFrame_clamps_and_frame_invariant sampleLoadedState
    { fr := 24, w := 800, h := 600, engineTotalFrames := 100 }
    { totalFrames := 100 } (-5) 100 (by norm_num)).2 rfl (by norm_num [sampleLoadedState])

/-- A file text that fails to parse as JSON (and carries no SVG geometry). -/
def badContent : FileContent :=
  { jsonParse := none, svgDoc := { viewBoxW := 0, viewBoxH := 0, widthAttr := none, heightAttr := none } }

/-- C1 counterexample: a failed load is NOT all-or-nothing for the tracking
fields — reopening `"new.json"` whose cached text no longer parses
(`loadFromJSONString` with a throwing parse) overwrites the display-name
tracking field with `"new"` even though the load fails, while the prior
state held `"old"`. -/
theorem load_failure_overwrites_tracking :
    (loadFromJSONString sampleLoadedState "new.json" 42 none).originalFilename =
        some "new" ∧
      sampleLoadedState.originalFilename = some "old" := by
  constructor <;> rfl

/-- C1 (amended): a wrong-extension load changes nothing at all; a
malformed-JSON load preserves the previously active asset — animation
data, engine instance, frame counters, dimensions, frame rate, playback
flags, and the whole viewport state — but overwrites the display-name and
extension tracking fields (and, on the file-drop path, also the file-size
and current-file tracking fields) with the failed file's values, because
those assignments precede the parse. -/
theorem load_failure_preserves_active_asset
    (st : ConverterState) (fileName : String) (fileSize : ℤ) (content : FileContent)
    (filename2 : String) (size2 : ℤ) :
    (strEndsWith (lowerStr fileName) ".json" = false →
      strEndsWith (lowerStr fileName) ".svg" = false →
      handleFile st fileName fileSize content = st) ∧
    (strEndsWith (lowerStr fileName) ".json" = true → content.jsonParse = none →
      (handleFile st fileName fileSize content).animationData = st.animationData ∧
      (handleFile st fileName fileSize content).animationInstance = st.animationInstance ∧
      (handleFile st fileName fileSize content).totalFrames = st.totalFrames ∧
      (handleFile st fileName fileSize content).currentFrame = st.currentFrame ∧
      (handleFile st fileName fileSize content).width = st.width ∧
      (handleFile st fileName fileSize content).height = st.height ∧
      (handleFile st fileName fileSize content).fps = st.fps ∧
      (handleFile st fileName fileSize content).isPlaying = st.isPlaying ∧
      (handleFile st fileName fileSize content).isLooping = st.isLooping ∧
      (handleFile st fileName fileSize content).zoomMode = st.zoomMode ∧
      (handleFile st fileName fileSize content).zoomPercent = st.zoomPercent ∧
      (handleFile st fileName fileSize content).panOffsetX = st.panOffsetX ∧
      (handleFile st fileName fileSize content).panOffsetY = st.panOffsetY) ∧
    ((loadFromJSONString st filename2 size2 none).animationData = st.animationData ∧
      (loadFromJSONString st filename2 size2 none).animationInstance = st.animationInstance ∧
      (loadFromJSONString st filename2 size2 none).totalFrames = st.totalFrames ∧
      (loadFromJSONString st filename2 size2 none).currentFrame = st.currentFrame ∧
      (loadFromJSONString st filename2 size2 none).fileSizeBytes = st.fileSizeBytes ∧
      (loadFromJSONString st filename2 size2 none).width = st.width ∧
      (loadFromJSONString st filename2 size2 none).height = st.height ∧
      (loadFromJSONString st filename2 size2 none).fps = st.fps ∧
      (loadFromJSONString st filename2 size2 none).isPlaying = st.isPlaying ∧
      (loadFromJSONString st filename2 size2 none).isLooping = st.isLooping ∧
      (loadFromJSONString st filename2 size2 none).zoomMode = st.zoomMode ∧
      (loadFromJSONString st filename2 size2 none).zoomPercent = st.zoomPercent ∧
      (loadFromJSONString st filename2 size2 none).currentFileName = st.currentFileName ∧
      (loadFromJSONString st filename2 size2 none).currentFileSize = st.currentFileSize ∧
      (loadFromJSONString st filename2 size2 none).panOffsetX = st.panOffsetX ∧
      (loadFromJSONString st filename2 size2 none).panOffsetY = st.panOffsetY) := by
  refine ⟨?_, ?_, ?_⟩
  · intro h1 h2
    simp [handleFile, h1, h2]
  · intro h1 h2
    refine ⟨?_, ?_, ?_, ?_, ?_, ?_, ?_, ?_, ?_, ?_, ?_, ?_, ?_⟩ <;>
      simp [handleFile, h1, h2]
  · refine ⟨?_, ?_, ?_, ?_, ?_, ?_, ?_, ?_, ?_, ?_, ?_, ?_, ?_, ?_, ?_, ?_⟩ <;>
      simp [loadFromJSONString]

/-- C1 witness: instantiation of `load_failure_preserves_active_asset` on
the loaded sample session, a `.txt` drop, a malformed `.json` drop, and a
malformed cached reopen. -/
theorem load_failure_preserves_active_asset_witness :
    handleFile sampleLoadedState "x.txt" 7 badContent = sampleLoadedState ∧
      (handleFile sampleLoadedState "new.json" 42 badContent).animationData =
        sampleLoadedState.animationData ∧
      (loadFromJSONString sampleLoadedState "new2.json" 42 none).animationData =
        sampleLoadedState.animationData := by
  have T := load_failure_preserves_active_asset sampleLoadedState "x.txt" 7 badContent
    "new2.json" 42
  have T2 := load_failure_preserves_active_asset sampleLoadedState "new.json" 42 badContent
    "new2.json" 42
  exact ⟨T.1 (by decide) (by decide), (T2.2.1 (by decide) rfl).1, T.2.2.1⟩

/-- A 301×100 static session state (dimensions that do not divide evenly
under the 0.25× raster scale). -/
def sampleWideState : ConverterState := { initState with width := 301, height := 100 }

/-- A live render-surface SVG matching the 301×100 session. -/
def sampleLiveSvg : LiveSvg :=
  { viewBoxW := 301, viewBoxH := 100, widthAttr := none, heightAttr := none }

/-- C2 counterexample: with intrinsic width 301 and the table scale factor
0.25, the raster export's pixel width is 75 — the rounded value — not
`intrinsicWidth * scaleFactor = 75.25`, so the exported pixel dimensions do
not always *equal* `intrinsic × scaleFactor`. -/
theorem raster_export_dims_rounded :
    (exportRasterDims sampleWideState sampleLiveSvg (1/4)).1 = 75 ∧
      sampleWideState.width * (1/4) ≠ ((75 : ℤ) : ℚ) := by
  constructor
  · norm_num [exportRasterDims, buildExportableSVGString, downloadRasterDims,
      sampleWideState, sampleLiveSvg, initState, jsOrQ, jsRound, Int.floor_eq_iff]
  · norm_num [sampleWideState, initState]

/-- C2 (amended): whenever an asset with nonzero intrinsic dimensions is
loaded, the cleaned export document carries `width`/`height` attributes
equal to the rounded intrinsic dimensions and a `0 0 w h` viewBox with the
exact intrinsic dimensions, and the raster output's pixel dimensions are
`max(1, round(round(intrinsic) * scaleFactor))` per axis; neither the
vector document nor the raster dimensions depend in any way on the
viewport state (zoom mode, zoom percentage, or pan offset). -/
theorem export_dims_intrinsic_viewport_independent
    (st : ConverterState) (live : LiveSvg) (scale : ℚ)
    (mode : ZoomMode) (percent : ℤ) (panX panY : ℚ)
    (hw : st.width ≠ 0) (hh : st.height ≠ 0) :
    (buildExportableSVGString st live).widthAttr = some (jsRound st.width) ∧
      (buildExportableSVGString st live).heightAttr = some (jsRound st.height) ∧
      (buildExportableSVGString st live).viewBox = some (st.width, st.height) ∧
      buildExportableSVGString
        { st with zoomMode := mode, zoomPercent := percent,
                  panOffsetX := panX, panOffsetY := panY } live =
        buildExportableSVGString st live ∧
      exportRasterDims st live scale =
        (max 1 (jsRound ((max 1 ((jsRound st.width : ℤ) : ℚ)) * scale)),
         max 1 (jsRound ((max 1 ((jsRound st.height : ℤ) : ℚ)) * scale))) ∧
      exportRasterDims
        { st with zoomMode := mode, zoomPercent := percent,
                  panOffsetX := panX, panOffsetY := panY } live scale =
        exportRasterDims st live scale := by
  refine ⟨?_, ?_, ?_, ?_, ?_, ?_⟩ <;>
    simp [buildExportableSVGString, exportRasterDims, downloadRasterDims, jsOrQ, hw, hh]

/-- C2 witness: instantiation of `export_dims_intrinsic_viewport_independent`
on the loaded 800×600 sample session at 2× raster scale under a
200%-fixed-zoom, panned viewport. -/
theorem export_dims_intrinsic_viewport_independent_witness :
    (buildExportableSVGString sampleLoadedState sampleLiveSvg).widthAttr =
        some (jsRound sampleLoadedState.width) ∧
      (buildExportableSVGString sampleLoadedState sampleLiveSvg).heightAttr =
        some (jsRound sampleLoadedState.height) ∧
      (buildExportableSVGString sampleLoadedState sampleLiveSvg).viewBox =
        some (sampleLoadedState.width, sampleLoadedState.height) ∧
      buildExportableSVGString
        { sampleLoadedState with zoomMode := ZoomMode.fixed, zoomPercent := 200,
                                 panOffsetX := 10, panOffsetY := -5 } sampleLiveSvg =
        buildExportableSVGString sampleLoadedState sampleLiveSvg ∧
      exportRasterDims sampleLoadedState sampleLiveSvg 2 =
        (max 1 (jsRound ((max 1 ((jsRound sampleLoadedState.width : ℤ) : ℚ)) * 2)),
         max 1 (jsRound ((max 1 ((jsRound sampleLoadedState.height : ℤ) : ℚ)) * 2))) ∧
      exportRasterDims
        { sampleLoadedState with zoomMode := ZoomMode.fixed, zoomPercent := 200,
                                 panOffsetX := 10, panOffsetY := -5 } sampleLiveSvg 2 =
        exportRasterDims sampleLoadedState sampleLiveSvg 2 :=
  export_dims_intrinsic_viewport_independent sampleLoadedState sampleLiveSvg 2
    ZoomMode.fixed 200 10 (-5) (by decide) (by decide)

/-- `Math.round` fixes integers. -/
theorem jsRound_intCast (n : ℤ) : jsRound ((n : ℚ)) = n := by
  rw [jsRound, Int.floor_int_add]
  norm_num

/-- The wheel handler always lands in fixed mode. -/
theorem wheelZoom_zoomMode (st : ConverterState) (env : Env) (delta : ℚ) :
    (wheelZoom st env true delta).zoomMode = ZoomMode.fixed := rfl

/-- The stored percentage produced by the wheel handler, unfolded. -/
theorem wheelZoom_zoomPercent (st : ConverterState) (env : Env) (delta : ℚ) :
    (wheelZoom st env true delta).zoomPercent =
      max 2 (min 3200 (jsRound (
        (((if st.zoomMode = ZoomMode.fit
            then jsRound (jsOrOptQ (computeFitPercent st env) 100)
            else if st.zoomPercent = 0 then 100 else st.zoomPercent) : ℤ) : ℚ) *
        (1 / (if max (-4) (min 4 (jsRound (delta / 100))) = 0
              then (if delta < 0 then 1 / (11/10 : ℚ) else (11/10 : ℚ))
              else (11/10 : ℚ) ^ (max (-4) (min 4 (jsRound (delta / 100))))))))) := rfl

/-- The stored percentage produced by the wheel handler when starting from
a fixed-mode state with a nonzero stored percentage. -/
theorem wheelZoom_zoomPercent_fixed (st : ConverterState) (env : Env) (delta : ℚ)
    (hmode : st.zoomMode = ZoomMode.fixed) (hp : st.zoomPercent ≠ 0) :
    (wheelZoom st env true delta).zoomPercent =
      max 2 (min 3200 (jsRound ((st.zoomPercent : ℚ) *
        (1 / (if max (-4) (min 4 (jsRound (delta / 100))) = 0
              then (if delta < 0 then 1 / (11/10 : ℚ) else (11/10 : ℚ))
              else (11/10 : ℚ) ^ (max (-4) (min 4 (jsRound (delta / 100))))))))) := by
  rw [wheelZoom_zoomPercent, hmode]
  simp [hp]

/-- C5: for every wheel event over the render area, from any zoom mode,
pan offset and scale (the current scale being nonzero, as it always is for
a real layout), the controller switches to fixed mode at a percentage
clamped to `[2, 3200]` and updates each pan coordinate by exactly
`newPan = (oldPan + centeringShift) * (newScale / oldScale) - centeringShift`,
anchoring the screen center rather than the cursor. -/
theorem wheelZoom_center_anchored (st : ConverterState) (env : Env) (delta : ℚ)
    (h : getCurrentScale st env ≠ 0) :
    (wheelZoom st env true delta).zoomMode = ZoomMode.fixed ∧
      2 ≤ (wheelZoom st env true delta).zoomPercent ∧
      (wheelZoom st env true delta).zoomPercent ≤ 3200 ∧
      (wheelZoom st env true delta).panOffsetX =
        (st.panOffsetX + xShift env.rem) *
          (getCurrentScale (wheelZoom st env true delta) env / getCurrentScale st env) -
          xShift env.rem ∧
      (wheelZoom st env true delta).panOffsetY =
        (st.panOffsetY + yShift env.rem) *
          (getCurrentScale (wheelZoom st env true delta) env / getCurrentScale st env) -
          yShift env.rem := by
  have hjs : jsOrQ (getCurrentScale st env) 1 = getCurrentScale st env := by
    simp [jsOrQ, h]
  have hx : (wheelZoom st env true delta).panOffsetX =
      getCurrentScale (wheelZoom st env true delta) env / jsOrQ (getCurrentScale st env) 1 *
        (st.panOffsetX + xShift env.rem) - xShift env.rem := rfl
  have hy : (wheelZoom st env true delta).panOffsetY =
      getCurrentScale (wheelZoom st env true delta) env / jsOrQ (getCurrentScale st env) 1 *
        (st.panOffsetY + yShift env.rem) - yShift env.rem := rfl
  refine ⟨rfl, ?_, ?_, ?_, ?_⟩
  · rw [wheelZoom_zoomPercent]
    exact le_max_left _ _
  · rw [wheelZoom_zoomPercent]
    exact max_le (by norm_num) (min_le_left _ _)
  · rw [hx, hjs]; ring
  · rw [hy, hjs]; ring

/-- C5 witness: instantiation of `wheelZoom_center_anchored` on the loaded
sample session (fit mode) with a one-notch zoom-in wheel event. -/
theorem wheelZoom_center_anchored_witness :
    (wheelZoom sampleLoadedState sampleEnv true (-100)).zoomMode = ZoomMode.fixed ∧
      2 ≤ (wheelZoom sampleLoadedState sampleEnv true (-100)).zoomPercent ∧
      (wheelZoom sampleLoadedState sampleEnv true (-100)).zoomPercent ≤ 3200 ∧
      (wheelZoom sampleLoadedState sampleEnv true (-100)).panOffsetX =
        (sampleLoadedState.panOffsetX + xShift sampleEnv.rem) *
          (getCurrentScale (wheelZoom sampleLoadedState sampleEnv true (-100)) sampleEnv /
            getCurrentScale sampleLoadedState sampleEnv) -
          xShift sampleEnv.rem ∧
      (wheelZoom sampleLoadedState sampleEnv true (-100)).panOffsetY =
        (sampleLoadedState.panOffsetY + yShift sampleEnv.rem) *
          (getCurrentScale (wheelZoom sampleLoadedState sampleEnv true (-100)) sampleEnv /
            getCurrentScale sampleLoadedState sampleEnv) -
          yShift sampleEnv.rem :=
  wheelZoom_center_anchored sampleLoadedState sampleEnv (-100)
    (by
      norm_num [getCurrentScale, computeFitScale, jsOrOptQ, sampleLoadedState, sampleEnv,
        initState, getFitPaddingPx]
      rw [if_neg (by simp : ¬ZoomMode.fit = ZoomMode.fixed)]
      norm_num)

/-- C6 (amended): starting from a fixed-mode percentage `p0 ≥ 2`, a single
wheel zoom-in event of `N` notches (`1 ≤ N ≤ 4`, the handler's per-event
notch cap) followed by a zoom-out event of `N` notches returns the stored
percentage exactly to `p0`, *provided the intermediate target stays within
the clamp range* (`p0 * 1.1^N ≤ 3200`) — the per-step rounding cancels. -/
theorem wheelZoom_roundtrip (st : ConverterState) (env : Env) (N : ℕ) (p0 : ℤ)
    (hmode : st.zoomMode = ZoomMode.fixed) (hp : st.zoomPercent = p0)
    (hN1 : 1 ≤ N) (hN4 : N ≤ 4) (hp2 : 2 ≤ p0)
    (hcl : (p0 : ℚ) * (11/10) ^ N ≤ 3200) :
    (wheelZoom (wheelZoom st env true (-(100 * (N : ℚ)))) env true
        (100 * (N : ℚ))).zoomPercent = p0 := by
  have hc1 : (11/10 : ℚ) ≤ (11/10) ^ N := by
    calc (11/10 : ℚ) = (11/10) ^ 1 := (pow_one _).symm
    _ ≤ (11/10) ^ N := pow_le_pow_right₀ (by norm_num) hN1
  have hcpos : (0 : ℚ) < (11/10) ^ N := by positivity
  have hp0Q : (2 : ℚ) ≤ (p0 : ℚ) := by exact_mod_cast hp2
  -- the first event's notch count is -N
  have hs1 : max (-4 : ℤ) (min 4 (jsRound ((-(100 * (N : ℚ))) / 100))) = -(N : ℤ) := by
    have hd : (-(100 * (N : ℚ))) / 100 = ((-(N : ℤ) : ℤ) : ℚ) := by push_cast; ring
    rw [hd, jsRound_intCast]; omega
  -- the first event's stored percentage is the unclamped rounded target
  have h1 := wheelZoom_zoomPercent_fixed st env (-(100 * (N : ℚ))) hmode (by omega)
  rw [hs1, if_neg (by omega : ¬(-(N : ℤ)) = 0), hp] at h1
  have hfac1 : (1 : ℚ) / ((11/10 : ℚ) ^ (-(N : ℤ))) = (11/10) ^ N := by
    rw [zpow_neg, zpow_natCast, one_div, inv_inv]
  rw [hfac1] at h1
  set q := jsRound ((p0 : ℚ) * (11/10) ^ N) with hqdef
  have hq_le : (q : ℚ) ≤ (p0 : ℚ) * (11/10) ^ N + 1/2 := by
    rw [hqdef, jsRound]; exact Int.floor_le _
  have hq_gt : (p0 : ℚ) * (11/10) ^ N - 1/2 < (q : ℚ) := by
    have h := Int.sub_one_lt_floor ((p0 : ℚ) * (11/10) ^ N + 1/2)
    rw [hqdef, jsRound]
    push_cast at h
    linarith
  have hq2 : 2 ≤ q := by
    rw [hqdef, jsRound]
    rw [Int.le_floor]
    have : (p0 : ℚ) * 1 ≤ (p0 : ℚ) * ((11/10) ^ N) :=
      mul_le_mul_of_nonneg_left (by linarith) (by linarith)
    push_cast
    linarith

  have hq3200 : q ≤ 3200 := by
    have : q < 3201 := by
      rw [hqdef, jsRound, Int.floor_lt]
      push_cast
      linarith

    omega
  have h1' : (wheelZoom st env true (-(100 * (N : ℚ)))).zoomPercent = q := by
    rw [h1]; omega
  -- the second event's notch count is N
  have hs2 : max (-4 : ℤ) (min 4 (jsRound ((100 * (N : ℚ)) / 100))) = (N : ℤ) := by
    have hd : (100 * (N : ℚ)) / 100 = (((N : ℤ) : ℤ) : ℚ) := by push_cast; ring
    rw [hd, jsRound_intCast]; omega
  have h2 := wheelZoom_zoomPercent_fixed (wheelZoom st env true (-(100 * (N : ℚ)))) env
    (100 * (N : ℚ)) (wheelZoom_zoomMode st env (-(100 * (N : ℚ)))) (by rw [h1']; omega)
  rw [hs2, if_neg (by omega : ¬(N : ℤ) = 0), h1'] at h2
  have hfac2 : (q : ℚ) * (1 / ((11/10 : ℚ) ^ ((N : ℤ)))) = (q : ℚ) / ((11/10) ^ N) := by
    rw [zpow_natCast]; ring
  rw [hfac2] at h2
  -- the rounded return target is exactly p0
  have hfq : jsRound ((q : ℚ) / ((11/10) ^ N)) = p0 := by
    rw [jsRound, Int.floor_eq_iff]
    constructor
    · have hstep : ((p0 : ℚ) - 1/2) * ((11/10) ^ N) ≤ (q : ℚ) := by nlinarith
      have := (le_div_iff₀ hcpos).mpr hstep
      linarith
    · have hstep : (q : ℚ) < ((p0 : ℚ) + 1/2) * ((11/10) ^ N) := by nlinarith
      have := (div_lt_iff₀ hcpos).mpr hstep
      linarith
  rw [hfq] at h2
  have hp3200 : p0 ≤ 3200 := by
    have h := le_mul_of_one_le_right (by linarith : (0 : ℚ) ≤ (p0 : ℚ))
      (by linarith : (1 : ℚ) ≤ (11/10 : ℚ) ^ N)
    have : (p0 : ℚ) ≤ 3200 := le_trans h hcl
    exact_mod_cast this
  rw [h2]; omega

/-- A fixed-mode session at the default 100% zoom. -/
def sampleFixedState : ConverterState := { initState with zoomMode := ZoomMode.fixed }

/-- A fixed-mode session at the 3200% zoom ceiling. -/
def sampleMaxZoomState : ConverterState :=
  { initState with zoomMode := ZoomMode.fixed, zoomPercent := 3200 }

/-- C6 witness: instantiation of `wheelZoom_roundtrip` at 100% fixed zoom
with a single-notch in/out pair. -/
theorem wheelZoom_roundtrip_witness :
    (wheelZoom (wheelZoom sampleFixedState sampleEnv true (-(100 * ((1 : ℕ) : ℚ))))
        sampleEnv true (100 * ((1 : ℕ) : ℚ))).zoomPercent = 100 :=
  wheelZoom_roundtrip sampleFixedState sampleEnv 1 100 rfl rfl (by norm_num)
    (by norm_num) (by norm_num) (by norm_num)

/-- C6 counterexample: at the 3200% ceiling, a one-notch zoom-in clamps to
3200, and the subsequent one-notch zoom-out lands at 2909 — the roundtrip
does not return the percentage to its original value once the clamp has
engaged, so the reversal property does not hold for every in-range start. -/
theorem wheelZoom_roundtrip_fails_at_clamp :
    (wheelZoom (wheelZoom sampleMaxZoomState sampleEnv true (-100)) sampleEnv true
        100).zoomPercent = 2909 ∧
      sampleMaxZoomState.zoomPercent = 3200 ∧ (2909 : ℤ) ≠ 3200 := by
  refine ⟨?_, rfl, by norm_num⟩
  have hs1 : max (-4 : ℤ) (min 4 (jsRound ((-100 : ℚ) / 100))) = -1 := by
    rw [show ((-100 : ℚ) / 100) = ((-1 : ℤ) : ℚ) by norm_num, jsRound_intCast]
    omega
  have h1 := wheelZoom_zoomPercent_fixed sampleMaxZoomState sampleEnv (-100) rfl
    (by norm_num [sampleMaxZoomState, initState])
  rw [hs1, if_neg (by omega : ¬(-1 : ℤ) = 0)] at h1
  have hfac1 : ((sampleMaxZoomState.zoomPercent : ℚ)) *
      (1 / ((11/10 : ℚ) ^ (-1 : ℤ))) = ((3520 : ℤ) : ℚ) := by
    norm_num [sampleMaxZoomState, initState]
  rw [hfac1, jsRound_intCast] at h1
  have h1' : (wheelZoom sampleMaxZoomState sampleEnv true (-100)).zoomPercent = 3200 := by
    rw [h1]; norm_num
  have hs2 : max (-4 : ℤ) (min 4 (jsRound ((100 : ℚ) / 100))) = 1 := by
    rw [show ((100 : ℚ) / 100) = ((1 : ℤ) : ℚ) by norm_num, jsRound_intCast]
    omega
  have h2 := wheelZoom_zoomPercent_fixed (wheelZoom sampleMaxZoomState sampleEnv true (-100))
    sampleEnv 100 (wheelZoom_zoomMode sampleMaxZoomState sampleEnv (-100))
    (by rw [h1']; norm_num)
  rw [hs2, if_neg (by omega : ¬(1 : ℤ) = 0), h1'] at h2
  have hraw : ((3200 : ℤ) : ℚ) * (1 / ((11/10 : ℚ) ^ (1 : ℤ))) = 32000 / 11 := by
    norm_num
  rw [hraw] at h2
  have hround : jsRound ((32000 : ℚ) / 11) = 2909 := by
    rw [jsRound, Int.floor_eq_iff]
    norm_num
  rw [hround] at h2
  rw [h2]
  norm_num

/-- C7 counterexample: a numeric zoom-control selection stores the parsed
value without clamping — selecting `9999` leaves the stored percentage at
9999, outside `[2, 3200]`, so not *every* operation that sets the
percentage clamps it at the point of change. -/
theorem handleSelectChange_numeric_unclamped :
    (handleSelectChange initState sampleEnv (SelectValue.numeric 9999)).zoomPercent =
        9999 ∧
      ¬(9999 : ℤ) ≤ 3200 := by
  exact ⟨rfl, by norm_num⟩

/-- C7 (amended): in fixed mode with a nonzero stored percentage the
transform scale is exactly `clamp(percent/100, 0.02, 32)`; the wheel-zoom
handler always stores a percentage clamped to `[2, 3200]`, and the
zoom-in/zoom-out control presets always store values inside `[2, 3200]`;
switching to fit leaves the stored percentage unchanged — but a direct
numeric selection stores its value unclamped (see the counterexample), the
scale clamp alone bounding its effect. -/
theorem fixed_scale_clamped_percent_sources (st : ConverterState) (env : Env)
    (delta : ℚ) :
    (st.zoomMode = ZoomMode.fixed → st.zoomPercent ≠ 0 →
      getCurrentScale st env = max (2/100) (min 32 ((st.zoomPercent : ℚ) / 100))) ∧
      (2 ≤ (wheelZoom st env true delta).zoomPercent ∧
        (wheelZoom st env true delta).zoomPercent ≤ 3200) ∧
      (2 ≤ (handleSelectChange st env SelectValue.zoomIn).zoomPercent ∧
        (handleSelectChange st env SelectValue.zoomIn).zoomPercent ≤ 3200) ∧
      (2 ≤ (handleSelectChange st env SelectValue.zoomOut).zoomPercent ∧
        (handleSelectChange st env SelectValue.zoomOut).zoomPercent ≤ 3200) ∧
      (handleSelectChange st env SelectValue.fit).zoomPercent = st.zoomPercent := by
  refine ⟨?_, ⟨?_, ?_⟩, ⟨?_, ?_⟩, ⟨?_, ?_⟩, rfl⟩
  · intro hmode hp
    simp [getCurrentScale, hmode, jsOrQ, hp]
  · rw [wheelZoom_zoomPercent]; exact le_max_left _ _
  · rw [wheelZoom_zoomPercent]; exact max_le (by norm_num) (min_le_left _ _)
  · simp only [handleSelectChange, setPercent]
    split_ifs <;> norm_num
  · simp only [handleSelectChange, setPercent]
    split_ifs <;> norm_num
  · simp only [handleSelectChange, setPercent]
    split_ifs <;> norm_num
  · simp only [handleSelectChange, setPercent]
    split_ifs <;> norm_num

/-- C7 witness: instantiation of `fixed_scale_clamped_percent_sources` on
the 100%-fixed sample session with a one-notch zoom-in wheel event. -/
theorem fixed_scale_clamped_percent_sources_witness :
    getCurrentScale sampleFixedState sampleEnv =
        max (2/100) (min 32 ((sampleFixedState.zoomPercent : ℚ) / 100)) ∧
      2 ≤ (wheelZoom sampleFixedState sampleEnv true (-100)).zoomPercent ∧
      (wheelZoom sampleFixedState sampleEnv true (-100)).zoomPercent ≤ 3200 ∧
      2 ≤ (handleSelectChange sampleFixedState sampleEnv SelectValue.zoomIn).zoomPercent ∧
      (handleSelectChange sampleFixedState sampleEnv SelectValue.zoomIn).zoomPercent ≤ 3200 ∧
      (handleSelectChange sampleFixedState sampleEnv SelectValue.fit).zoomPercent =
        sampleFixedState.zoomPercent := by
  have T := fixed_scale_clamped_percent_sources sampleFixedState sampleEnv (-100)
  exact ⟨T.1 rfl (by norm_num [sampleFixedState, initState]), T.2.1.1, T.2.1.2,
    T.2.2.1.1, T.2.2.1.2, T.2.2.2.2⟩
